import Mathlib

/-!
Verification of `src/unsloth_zoo/training_utils.py` against its
natural-language specification.

The Python file is shallowly embedded below. Pure computations become Lean
functions; fallible code returns `Except`; the stateful prefix of
`unsloth_train` becomes an explicit list of effects. Machine integers are
`Nat`/`Int` (Python integers are unbounded, so no modular wrap is needed);
Python floats used for ratios, fractional epoch counts and fractional
checkpoint intervals are modelled as `ℚ`.
-/

/-! ## Label sanity scanner (`fix_zero_training_loss`, lines 38-69)

A dataset row is modelled by whether the first-row gate
`type(row) is dict and "labels" in row` would pass (`hasLabels`) and by the
result of inspecting the row inside the `try`: `some labels` when
`list(set(row["labels"]))` succeeds, `none` when any exception is raised
(the bare `except: continue`). -/

structure DatasetRow where
  hasLabels : Bool
  labels : Option (List Int)
deriving DecidableEq, Repr

/-- Python line 55: `len(check_tokens) == 1 and check_tokens[0] == -100`
where `check_tokens = list(set(row["labels"]))`; the value set of the row is
exactly the singleton set containing the ignore sentinel. -/
def rowIsBad (labels : List Int) : Bool :=
  labels.dedup == [-100]

/-- The counting loop of lines 50-58: `i` is the `enumerate` index, the two
accumulators are `seen_bad` and `seen_good`. A failing row takes the
`except: continue` path, which skips both the counters and the
`if i >= 100: break` check. -/
def scanRows : List (Option (List Int)) → ℕ → ℕ → ℕ → ℕ × ℕ
  | [], _, bad, good => (bad, good)
  | none :: rest, i, bad, good => scanRows rest (i + 1) bad good
  | some labels :: rest, i, bad, good =>
    if 100 ≤ i then
      (if rowIsBad labels then bad + 1 else bad,
       if rowIsBad labels then good else good + 1)
    else
      scanRows rest (i + 1)
        (if rowIsBad labels then bad + 1 else bad)
        (if rowIsBad labels then good else good + 1)

/-- Lines 38-69. Returns `Except.ok warned` where `warned` says whether the
warning was printed, and `Except.error ()` when the ratio computation on
line 61 divides by zero (`ZeroDivisionError`). The two projections of
`scanRows ...` are the locals `seen_bad` and `seen_good`. -/
def fix_zero_training_loss : List DatasetRow → Except Unit Bool
  | [] => Except.ok false
  | r0 :: rest =>
    if r0.hasLabels then
      if (scanRows ((r0 :: rest).map DatasetRow.labels) 0 0 0).1 +
          (scanRows ((r0 :: rest).map DatasetRow.labels) 0 0 0).2 = 0 then Except.error ()
      else
        Except.ok (decide
          (((scanRows ((r0 :: rest).map DatasetRow.labels) 0 0 0).1 : ℚ) /
            (((scanRows ((r0 :: rest).map DatasetRow.labels) 0 0 0).1 : ℚ) +
             ((scanRows ((r0 :: rest).map DatasetRow.labels) 0 0 0).2 : ℚ)) ≥ 9 / 10))
    else Except.ok false

/-- The scanner as the claim words it: inspect only the first 101 rows, a
row is degenerate exactly when all its label positions equal -100 (vacuously
true for an empty label list). Used only to exhibit where the claim and the
code disagree. -/
def claimedLabelScan : List DatasetRow → Except Unit Bool
  | [] => Except.ok false
  | r0 :: rest =>
    if r0.hasLabels then
      if (((r0 :: rest).take 101).filterMap DatasetRow.labels).countP
            (fun l => l.all (· == -100)) +
          (((r0 :: rest).take 101).filterMap DatasetRow.labels).countP
            (fun l => ! l.all (· == -100)) = 0 then Except.error ()
      else
        Except.ok (decide
          (((((r0 :: rest).take 101).filterMap DatasetRow.labels).countP
              (fun l => l.all (· == -100)) : ℚ) /
            (((((r0 :: rest).take 101).filterMap DatasetRow.labels).countP
              (fun l => l.all (· == -100)) : ℚ) +
             ((((r0 :: rest).take 101).filterMap DatasetRow.labels).countP
              (fun l => ! l.all (· == -100)) : ℚ)) ≥ 9 / 10))
    else Except.ok false

instance exceptUnitBoolDecEq : DecidableEq (Except Unit Bool) := fun a b =>
  match a, b with
  | Except.ok x, Except.ok y =>
    if h : x = y then isTrue (by rw [h]) else isFalse (fun hc => h (by injection hc))
  | Except.error x, Except.error y => isTrue (by cases x; cases y; rfl)
  | Except.ok _, Except.error _ => isFalse (fun hc => Except.noConfusion hc)
  | Except.error _, Except.ok _ => isFalse (fun hc => Except.noConfusion hc)

lemma rowIsBad_iff (l : List Int) :
    rowIsBad l = true ↔ (l ≠ [] ∧ ∀ x ∈ l, x = -100) := by
  unfold rowIsBad
  rw [beq_iff_eq]
  constructor
  · intro hd
    constructor
    · intro hnil
      rw [hnil] at hd
      simp at hd
    · intro x hx
      have hxd : x ∈ l.dedup := List.mem_dedup.mpr hx
      rw [hd] at hxd
      simpa using hxd
  · rintro ⟨hne, hall⟩
    have h1 : ∀ x ∈ l.dedup, x = -100 := fun x hx => hall x (List.mem_dedup.mp hx)
    have h2 : l.dedup ≠ [] := fun h => hne ((List.dedup_eq_nil l).mp h)
    have h3 : l.dedup.Nodup := l.nodup_dedup
    cases hdd : l.dedup with
    | nil => exact absurd hdd h2
    | cons a ts =>
      have ha : a = -100 := h1 a (by rw [hdd]; exact List.mem_cons_self _ _)
      cases hts : ts with
      | nil => rw [ha]
      | cons b ts2 =>
        have hb : b = -100 := by
          refine h1 b ?_
          rw [hdd, hts]
          exact List.mem_cons_of_mem _ (List.mem_cons_self _ _)
        rw [hdd, hts] at h3
        have hnotin := (List.nodup_cons.mp h3).1
        exact absurd (by rw [ha, ← hb]; exact List.mem_cons_self _ _) hnotin

lemma scanRows_no_none (L : List (Option (List Int))) :
    ∀ (i bad good : ℕ), i ≤ 100 → (∀ x ∈ L, x ≠ none) →
    scanRows L i bad good =
      (bad + ((L.take (101 - i)).filterMap id).countP rowIsBad,
       good + ((L.take (101 - i)).filterMap id).countP (fun l => ! rowIsBad l)) := by
  induction L with
  | nil => intro i bad good _ _; simp [scanRows]
  | cons row rest ih =>
    intro i bad good hi hf
    have hrow := hf row (List.mem_cons_self _ _)
    cases row with
    | none => exact absurd rfl hrow
    | some labels =>
      have htake : 101 - i = (100 - i) + 1 := by omega
      rw [htake, List.take_succ_cons, List.filterMap_cons]
      simp only [id, Option.some.injEq]
      by_cases hstop : 100 ≤ i
      · have hi100 : i = 100 := le_antisymm hi hstop
        have hz : 100 - i = 0 := by omega
        rw [hz]
        simp only [List.take_zero, List.filterMap_nil]
        unfold scanRows
        rw [if_pos hstop]
        by_cases hbad : rowIsBad labels <;>
          simp [hbad, List.countP_cons]
      · have hi2 : i + 1 ≤ 100 := by omega
        unfold scanRows
        rw [if_neg hstop]
        rw [ih (i + 1) _ _ hi2 (fun x hx => hf x (List.mem_cons_of_mem _ hx))]
        have halign : 101 - (i + 1) = 100 - i := by omega
        rw [halign]
        by_cases hbad : rowIsBad labels <;>
          simp [hbad, List.countP_cons] <;> omega

lemma scanRows_all_none (L : List (Option (List Int))) :
    ∀ (i bad good : ℕ), (∀ x ∈ L, x = none) → scanRows L i bad good = (bad, good) := by
  induction L with
  | nil => intro i bad good _; rfl
  | cons row rest ih =>
    intro i bad good hall
    have hrow := hall row (List.mem_cons_self _ _)
    subst hrow
    exact ih (i + 1) bad good (fun x hx => hall x (List.mem_cons_of_mem _ hx))

/-- C9 counterexample: a single row whose label list is empty. Every label
position vacuously equals -100, so the claim counts the row degenerate and
predicts a warning; the code checks `len(set(labels)) == 1`, counts the row
usable, and prints nothing. -/
theorem empty_labels_row_counts_usable :
    fix_zero_training_loss [⟨true, some []⟩] = Except.ok false ∧
    claimedLabelScan [⟨true, some []⟩] = Except.ok true ∧
    (Except.ok false : Except Unit Bool) ≠ Except.ok true := by
  have h1 : rowIsBad [] = false := by decide
  refine ⟨?_, ?_, by decide⟩
  · norm_num [fix_zero_training_loss, scanRows, h1]
  · have h2 : List.filterMap DatasetRow.labels [(⟨true, some []⟩ : DatasetRow)] = [[]] := by
      decide
    have h3 : List.countP (fun l : List Int => l.all (· == -100)) [[]] = 1 := by decide
    have h4 : List.countP (fun l : List Int => ! l.all (· == -100)) [[]] = 0 := by decide
    norm_num [claimedLabelScan, h2, h3, h4]

/-- C9 (amended): the scanner is a no-op on an empty dataset or when the
first row lacks a label field; a row counts as degenerate exactly when its
label list is non-empty and every position equals -100; and, provided no
inspected row raises, only the first 101 rows are consulted and the warning
is emitted if and only if degenerate / (degenerate + usable) ≥ 0.9. -/
theorem label_scan_spec :
    (fix_zero_training_loss [] = Except.ok false) ∧
    (∀ (r0 : DatasetRow) (rest : List DatasetRow), r0.hasLabels = false →
        fix_zero_training_loss (r0 :: rest) = Except.ok false) ∧
    (∀ l : List Int, rowIsBad l = true ↔ (l ≠ [] ∧ ∀ x ∈ l, x = -100)) ∧
    (∀ (r0 : DatasetRow) (rest : List DatasetRow), r0.hasLabels = true →
        (∀ r ∈ r0 :: rest, r.labels ≠ none) →
        fix_zero_training_loss (r0 :: rest) =
          Except.ok (decide
            (((((r0 :: rest).take 101).filterMap DatasetRow.labels).countP rowIsBad : ℚ) /
             (((((r0 :: rest).take 101).filterMap DatasetRow.labels).countP rowIsBad : ℚ) +
              ((((r0 :: rest).take 101).filterMap DatasetRow.labels).countP
                (fun l => ! rowIsBad l) : ℚ)) ≥ 9 / 10))) := by
  refine ⟨rfl, ?_, rowIsBad_iff, ?_⟩
  · intro r0 rest h
    simp [fix_zero_training_loss, h]
  · intro r0 rest h0 hfail
    have hmapfail : ∀ x ∈ (r0 :: rest).map DatasetRow.labels, x ≠ none := by
      intro x hx
      obtain ⟨r, hr, rfl⟩ := List.mem_map.mp hx
      exact hfail r hr
    obtain ⟨l0, hl0⟩ : ∃ l, r0.labels = some l := by
      cases h : r0.labels with
      | none => exact absurd h (hfail r0 (List.mem_cons_self _ _))
      | some l => exact ⟨l, rfl⟩
    have hfm : ∀ M : List DatasetRow,
        ((M.map DatasetRow.labels).take (101 - 0)).filterMap id =
          (M.take 101).filterMap DatasetRow.labels := by
      intro M
      rw [Nat.sub_zero, ← List.map_take, List.filterMap_map]
      rfl
    have hbad : (scanRows ((r0 :: rest).map DatasetRow.labels) 0 0 0).1 =
        (((r0 :: rest).take 101).filterMap DatasetRow.labels).countP rowIsBad := by
      rw [scanRows_no_none _ 0 0 0 (by omega) hmapfail, hfm (r0 :: rest)]
      simp
    have hgood : (scanRows ((r0 :: rest).map DatasetRow.labels) 0 0 0).2 =
        (((r0 :: rest).take 101).filterMap DatasetRow.labels).countP (fun l => ! rowIsBad l) := by
      rw [scanRows_no_none _ 0 0 0 (by omega) hmapfail, hfm (r0 :: rest)]
      simp
    have hne : ((r0 :: rest).take 101).filterMap DatasetRow.labels ≠ [] := by
      have h101 : (101 : ℕ) = 100 + 1 := rfl
      rw [h101, List.take_succ_cons, List.filterMap_cons, hl0]
      simp
    have hlen : 0 < (((r0 :: rest).take 101).filterMap DatasetRow.labels).length :=
      List.length_pos.mpr hne
    have hsum : (((r0 :: rest).take 101).filterMap DatasetRow.labels).length =
        (((r0 :: rest).take 101).filterMap DatasetRow.labels).countP rowIsBad +
        (((r0 :: rest).take 101).filterMap DatasetRow.labels).countP (fun l => ! rowIsBad l) := by
      rw [List.length_eq_countP_add_countP rowIsBad]
      simp
    simp only [fix_zero_training_loss, h0, eq_self_iff_true, if_true]
    rw [hbad, hgood, if_neg (by omega)]

/-- C9 witness: a concrete one-row dataset with labels `[-100, 5]`
instantiating the amended theorem. -/
theorem label_scan_spec_witness :
    fix_zero_training_loss [⟨true, some [-100, 5]⟩] =
      Except.ok (decide
        (((((([⟨true, some [-100, 5]⟩] : List DatasetRow).take 101).filterMap
              DatasetRow.labels).countP rowIsBad : ℚ) /
          ((((([⟨true, some [-100, 5]⟩] : List DatasetRow).take 101).filterMap
              DatasetRow.labels).countP rowIsBad : ℚ) +
           (((([⟨true, some [-100, 5]⟩] : List DatasetRow).take 101).filterMap
              DatasetRow.labels).countP (fun l => ! rowIsBad l) : ℚ))) ≥ 9 / 10)) :=
  label_scan_spec.2.2.2 ⟨true, some [-100, 5]⟩ [] rfl (by decide)

/-- C10: when the dataset is non-empty, its first row passes the label-field
gate, but every inspected row raises, both counters stay zero and the ratio
on line 61 divides by zero: the scanner raises instead of completing. -/
theorem all_rows_failing_divides_by_zero (r0 : DatasetRow) (rest : List DatasetRow)
    (h0 : r0.hasLabels = true) (hall : ∀ r ∈ r0 :: rest, r.labels = none) :
    fix_zero_training_loss (r0 :: rest) = Except.error () := by
  have hmap : ∀ x ∈ (r0 :: rest).map DatasetRow.labels, x = none := by
    intro x hx
    obtain ⟨r, hr, rfl⟩ := List.mem_map.mp hx
    exact hall r hr
  simp only [fix_zero_training_loss, h0, eq_self_iff_true, if_true]
  rw [scanRows_all_none _ 0 0 0 hmap]
  simp

/-- C10 witness: one row whose inspection raises. -/
theorem all_rows_failing_divides_by_zero_witness :
    fix_zero_training_loss [⟨true, none⟩] = Except.error () :=
  all_rows_failing_divides_by_zero ⟨true, none⟩ [] rfl (by decide)

/-! ## Step planner (`get_max_steps`, lines 72-98)

Arguments mirror the fields of `training_args` that the function reads.
`max_steps_arg` models `training_args.max_steps` with the HF default `-1`
and any other non-positive value collapsed to `0` (the code only tests
`> 0`); `num_train_epochs_arg` models the float `num_train_epochs` as `ℚ`.
The result tuple is `(total_train_batch_size, max_steps, num_train_epochs,
num_train_samples)`. -/

def get_max_steps (world_size per_device_train_batch_size gradient_accumulation_steps
    max_steps_arg : ℕ) (num_train_epochs_arg : ℚ) (n_training_samples : ℕ) :
    Except String (ℕ × ℤ × ℤ × ℚ) :=
  if world_size > 1 then
    Except.error "Unsloth currently does not support multi GPU setups - but we are working on it!"
  else
    if max_steps_arg > 0 then
      Except.ok
        (per_device_train_batch_size * gradient_accumulation_steps,
         (max_steps_arg : ℤ),
         ((max_steps_arg / max (n_training_samples / gradient_accumulation_steps) 1 +
            (if max_steps_arg % max (n_training_samples / gradient_accumulation_steps) 1 > 0
             then 1 else 0) : ℕ) : ℤ),
         ((max_steps_arg * (per_device_train_batch_size * gradient_accumulation_steps) : ℕ) : ℚ))
    else
      Except.ok
        (per_device_train_batch_size * gradient_accumulation_steps,
         ⌈num_train_epochs_arg * ((max (n_training_samples / gradient_accumulation_steps) 1 : ℕ) : ℚ)⌉,
         ⌈num_train_epochs_arg⌉,
         (n_training_samples : ℚ) * num_train_epochs_arg)

/-- The planner as the specification words it: `total_batch_size`,
`updates_per_epoch = max(dataset_size // accumulation_steps, 1)`, then
either `epochs = ceil(max_steps / updates_per_epoch)` for an explicit
`max_steps > 0`, or `max_steps = ceil(target_epochs × updates_per_epoch)`
and `epochs = ceil(target_epochs)`. -/
def claimedPlanner (per_device ga max_steps_arg : ℕ) (target_epochs : ℚ)
    (dataset_size : ℕ) : ℕ × ℤ × ℤ :=
  if max_steps_arg > 0 then
    (per_device * ga, (max_steps_arg : ℤ),
     ⌈(max_steps_arg : ℚ) / ((max (dataset_size / ga) 1 : ℕ) : ℚ)⌉)
  else
    (per_device * ga,
     ⌈target_epochs * ((max (dataset_size / ga) 1 : ℕ) : ℚ)⌉,
     ⌈target_epochs⌉)

lemma nat_ceil_div (a b : ℕ) (hb : 0 < b) :
    ⌈(a : ℚ) / (b : ℚ)⌉ = ((a / b + if a % b > 0 then 1 else 0 : ℕ) : ℤ) := by
  have hbQ : (0 : ℚ) < (b : ℚ) := by exact_mod_cast hb
  rcases Nat.eq_zero_or_pos (a % b) with h0 | hpos
  · obtain ⟨c, hc⟩ := Nat.dvd_of_mod_eq_zero h0
    subst hc
    rw [if_neg (by omega)]
    have hdiv : (((b * c : ℕ) : ℚ)) / (b : ℚ) = ((c : ℕ) : ℚ) := by
      rw [Nat.cast_mul, mul_comm, mul_div_assoc, div_self (ne_of_gt hbQ), mul_one]
    rw [hdiv, Int.ceil_natCast, Nat.mul_div_cancel_left c hb]
    norm_num
  · rw [if_pos hpos]
    have hmod : a % b < b := Nat.mod_lt _ hb
    have hdm : b * (a / b) + a % b = a := Nat.div_add_mod a b
    have hlt : a / b * b < a := by
      rw [Nat.mul_comm (a / b) b]
      omega
    have hle : a ≤ (a / b + 1) * b := by
      have hexp : (a / b + 1) * b = b * (a / b) + b := by ring
      omega
    rw [Int.ceil_eq_iff]
    constructor
    · have hcast : ((((a / b + 1 : ℕ) : ℤ)) : ℚ) - 1 = ((a / b : ℕ) : ℚ) := by
        rw [Int.cast_natCast, Nat.cast_add, Nat.cast_one]
        ring
      rw [hcast, lt_div_iff₀ hbQ]
      exact_mod_cast hlt
    · have hcast2 : ((((a / b + 1 : ℕ) : ℤ)) : ℚ) = ((a / b : ℕ) : ℚ) + 1 := by
        rw [Int.cast_natCast, Nat.cast_add, Nat.cast_one]
      rw [hcast2, div_le_iff₀ hbQ]
      exact_mod_cast hle

/-- C4: with a single accelerator, `get_max_steps` computes exactly the
quantities the specification prescribes: total batch size, updates per
epoch, and the max-step and epoch counts in both configuration modes
(explicit `max_steps` versus a target epoch count). -/
theorem get_max_steps_matches_plan (pd ga ms : ℕ) (t : ℚ) (n : ℕ) (_hga : 0 < ga) :
    (get_max_steps 1 pd ga ms t n).map (fun r => (r.1, r.2.1, r.2.2.1)) =
      Except.ok (claimedPlanner pd ga ms t n) := by
  have hupe : 0 < max (n / ga) 1 := by
    have := Nat.le_max_right (n / ga) 1
    omega
  unfold get_max_steps claimedPlanner
  rw [if_neg (by omega : ¬ (1 : ℕ) > 1)]
  by_cases hms : ms > 0
  · rw [if_pos hms, if_pos hms]
    simp only [Except.map]
    rw [nat_ceil_div ms (max (n / ga) 1) hupe]
  · rw [if_neg hms, if_neg hms]
    simp only [Except.map]

/-- C4 witness: the worked example of the specification,
`dataset_size = 100`, `accumulation_steps = 8`, `target_epochs = 3` (with
`per_device_batch_size = 2`): `updates_per_epoch = 12`, `max_steps = 36`,
`epochs = 3`. -/
theorem get_max_steps_matches_plan_witness :
    (get_max_steps 1 2 8 0 3 100).map (fun r => (r.1, r.2.1, r.2.2.1)) =
      Except.ok (claimedPlanner 2 8 0 3 100) ∧
    max (100 / 8) 1 = 12 ∧
    claimedPlanner 2 8 0 3 100 = (16, 36, 3) := by
  refine ⟨get_max_steps_matches_plan 2 8 0 3 100 (by decide), by decide, ?_⟩
  norm_num [claimedPlanner]

/-! ## Resume bookkeeping (`unsloth_train`, lines 257-263)

`max_iterations = int(math.ceil(n_training_samples / gradient_accumulation_steps))`,
`num_trained_epochs = trainer.state.global_step // max_iterations`, and —
exactly as the code is written — `num_trained_steps = step -
(max_iterations * num_train_epochs)` where `num_train_epochs` is the TOTAL
planned epoch count returned by `get_max_steps`, not the freshly computed
`num_trained_epochs`. -/

def max_iterations (n_training_samples gradient_accumulation_steps : ℕ) : ℕ :=
  (⌈(n_training_samples : ℚ) / (gradient_accumulation_steps : ℚ)⌉).toNat

def num_trained_epochs (global_step maxIter : ℕ) : ℕ :=
  global_step / maxIter

def num_trained_steps (global_step maxIter numTrainEpochs : ℕ) : ℤ :=
  (global_step : ℤ) - (maxIter : ℤ) * (numTrainEpochs : ℤ)

/-- Line 262-263: `leftover_batches = n_samples % accumulation_steps`,
normalized to `accumulation_steps` when the remainder is zero. -/
def leftover_batches (n_training_samples gradient_accumulation_steps : ℕ) : ℕ :=
  if n_training_samples % gradient_accumulation_steps = 0 then gradient_accumulation_steps
  else n_training_samples % gradient_accumulation_steps

/-- Line 296: the number of micro-batches drawn for inner-loop index `j`
(an integer, since the loop range can start below zero on a fresh run). -/
def n_batches (n_training_samples gradient_accumulation_steps : ℕ) (j : ℤ) : ℕ :=
  if j = (max_iterations n_training_samples gradient_accumulation_steps : ℤ) - 1 then
    leftover_batches n_training_samples gradient_accumulation_steps
  else gradient_accumulation_steps

lemma max_iterations_100_8 : max_iterations 100 8 = 13 := by
  have hc : ⌈(25 / 2 : ℚ)⌉ = 13 := by
    rw [Int.ceil_eq_iff]
    norm_num
  norm_num [max_iterations]
  rw [hc]
  rfl

lemma max_iterations_9_8 : max_iterations 9 8 = 2 := by
  have hc : ⌈(9 / 8 : ℚ)⌉ = 2 := by
    rw [Int.ceil_eq_iff]
    norm_num
  norm_num [max_iterations]
  rw [hc]
  rfl

/-- C2: the resume-point computation at the concrete input of a fresh run
(`saved_global_step = 0`) with `dataset_size = 100`,
`accumulation_steps = 8` and a 3-epoch plan (produced by `get_max_steps`):
the code yields `num_trained_steps = 0 - 13*3 = -39`, while the formula of
the claim — which multiplies by the freshly computed `epochs_already_elapsed`
— yields `0`. -/
theorem resume_step_uses_total_epochs :
    (get_max_steps 1 2 8 0 3 100).map (fun r => r.2.2.1) = Except.ok 3 ∧
    max_iterations 100 8 = 13 ∧
    num_trained_epochs 0 (max_iterations 100 8) = 0 ∧
    num_trained_steps 0 (max_iterations 100 8) 3 = -39 ∧
    (0 : ℤ) - (max_iterations 100 8 : ℤ) * (num_trained_epochs 0 (max_iterations 100 8) : ℤ) = 0 ∧
    (-39 : ℤ) ≠ 0 := by
  have h1 := max_iterations_100_8
  refine ⟨?_, h1, by rw [h1]; rfl, by rw [h1]; decide,
    by rw [h1]; norm_num [num_trained_epochs], by norm_num⟩
  norm_num [get_max_steps, Except.map]

/-- C8: every accumulation window draws `gradient_accumulation_steps`
micro-batches except the final inner-loop index `max_iterations - 1`, which
draws `n_samples mod accumulation_steps`, normalized to a full window when
the remainder is zero; no window is ever empty. -/
theorem window_sizes (n ga : ℕ) (hga : 0 < ga) :
    (∀ j : ℤ, j ≠ (max_iterations n ga : ℤ) - 1 → n_batches n ga j = ga) ∧
    (n_batches n ga ((max_iterations n ga : ℤ) - 1) =
      if n % ga = 0 then ga else n % ga) ∧
    (∀ j : ℤ, 0 < n_batches n ga j) := by
  refine ⟨?_, ?_, ?_⟩
  · intro j hj
    unfold n_batches
    rw [if_neg hj]
  · unfold n_batches leftover_batches
    rw [if_pos rfl]
  · intro j
    unfold n_batches leftover_batches
    by_cases hj : j = (max_iterations n ga : ℤ) - 1
    · rw [if_pos hj]
      by_cases hm : n % ga = 0
      · rw [if_pos hm]
        omega
      · rw [if_neg hm]
        omega
    · rw [if_neg hj]
      omega

/-- C8 witness: `dataset_size = 100`, `accumulation_steps = 8`
(`max_iterations = 13`): a non-final window has 8 micro-batches, the final
window (index 12) has `100 mod 8 = 4`, and is non-empty. -/
theorem window_sizes_witness :
    0 < 8 ∧ n_batches 100 8 5 = 8 ∧ n_batches 100 8 12 = 4 ∧ 0 < n_batches 100 8 12 := by
  refine ⟨by decide, (window_sizes 100 8 (by decide)).1 5 (by simp [max_iterations_100_8]),
    ?_, ((window_sizes 100 8 (by decide)).2.2) 12⟩
  have h := (window_sizes 100 8 (by decide)).2.1
  rw [max_iterations_100_8] at h
  norm_num at h
  exact h

/-! ## Training-loop step accounting (`unsloth_train`, lines 279-345)

The evolution of `step`, the number of accumulation windows processed, and
the per-epoch micro-batch supply are modelled. Each epoch builds a fresh
`DataLoader` (line 283) that yields `ceil(n_samples /
per_device_train_batch_size)` micro-batches (`drop_last` defaults to
`False`); each inner-loop iteration `j` of
`for j in range(num_trained_steps, max_iterations)` first draws
`n_batches` micro-batches via `next(...)` (line 297) — raising an UNCAUGHT
`StopIteration` that aborts the whole run when the loader is exhausted —
then performs the window (`step += 1`), and the
`if step == max_steps: break` on line 337 exits the INNER loop only. The
per-epoch iteration count and starting index are the same every epoch
because `num_trained_steps` is computed once (line 261). -/

/-- `len(DataLoader)` with `drop_last = False`:
`ceil(n_samples / per_device_train_batch_size)` micro-batches per epoch. -/
def numBatchesPerEpoch (n_training_samples per_device_train_batch_size : ℕ) : ℕ :=
  (n_training_samples + per_device_train_batch_size - 1) / per_device_train_batch_size

inductive EpochResult
  | ranOut (step : ℤ) (windows : ℕ)
  | broke (step : ℤ) (windows : ℕ)
  | completed (step : ℤ) (windows : ℕ)
deriving DecidableEq, Repr

inductive RunOutcome
  | finished (step : ℤ) (windows : ℕ)
  | crashed (step : ℤ) (windows : ℕ)
deriving DecidableEq, Repr

/-- One epoch of the inner loop (lines 295-345), carrying the remaining
micro-batch `supply` of this epoch's `DataLoader`. The fuel is the number
of iterations of `range(num_trained_steps, max_iterations)` and `j` the
current index; the batch count drawn at `j` is `n_batches` of line 296,
with `max_iterations` passed in as `maxIterZ`. Drawing more than the
remaining supply is the `StopIteration` of line 297 (`ranOut`, at the
pre-increment `step`); hitting `step == max_steps` after a window is the
`break` of line 337 (`broke`). -/
def runEpoch (ga leftover : ℕ) (maxIterZ maxSteps : ℤ) :
    ℕ → ℤ → ℕ → ℤ → ℕ → EpochResult
  | 0, _, _, step, w => EpochResult.completed step w
  | fuel + 1, j, supply, step, w =>
    if supply < (if j = maxIterZ - 1 then leftover else ga) then
      EpochResult.ranOut step w
    else if step + 1 = maxSteps then EpochResult.broke (step + 1) (w + 1)
    else
      runEpoch ga leftover maxIterZ maxSteps fuel (j + 1)
        (supply - (if j = maxIterZ - 1 then leftover else ga)) (step + 1) (w + 1)

/-- The epoch loop of lines 279-350: every epoch restarts the supply at `m`
(fresh `DataLoader`) and the inner range at the same starting index. A
`broke` result continues with the NEXT epoch — the `break` leaves only the
inner loop — while `ranOut` is the uncaught `StopIteration` that crashes
the run. -/
def runEpochs (ga leftover : ℕ) (maxIterZ maxSteps : ℤ) (niters : ℕ) (j0 : ℤ)
    (m : ℕ) : ℕ → ℤ → ℕ → RunOutcome
  | 0, step, w => RunOutcome.finished step w
  | e + 1, step, w =>
    match runEpoch ga leftover maxIterZ maxSteps niters j0 m step 0 with
    | EpochResult.ranOut s dw => RunOutcome.crashed s (w + dw)
    | EpochResult.broke s dw => runEpochs ga leftover maxIterZ maxSteps niters j0 m e s (w + dw)
    | EpochResult.completed s dw => runEpochs ga leftover maxIterZ maxSteps niters j0 m e s (w + dw)

/-- The double loop of lines 279-345 with the derived quantities of lines
257-263: epochs run from `num_trained_epochs` to `num_train_epochs - 1`;
each epoch iterates `range(num_trained_steps, max_iterations)` over a
fresh supply of `numBatchesPerEpoch` micro-batches. -/
def unslothTrainRun (global_step0 n ga pd numTrainEpochs maxSteps : ℕ) : RunOutcome :=
  runEpochs ga (leftover_batches n ga) (max_iterations n ga : ℤ) (maxSteps : ℤ)
    (((max_iterations n ga : ℤ) -
        num_trained_steps global_step0 (max_iterations n ga) numTrainEpochs).toNat)
    (num_trained_steps global_step0 (max_iterations n ga) numTrainEpochs)
    (numBatchesPerEpoch n pd)
    (numTrainEpochs - num_trained_epochs global_step0 (max_iterations n ga))
    (global_step0 : ℤ) 0

/-- C5: a run resumed from a checkpoint with `global_step = 1`, with
`dataset_size = 9`, `per_device_batch_size = 1`, `accumulation_steps = 8`
and `training_args.max_steps = 2`. `get_max_steps` plans `max_steps = 2`
over 2 epochs; `max_iterations = 2`, `num_trained_steps = -3`, and each
epoch has a fresh supply of 9 micro-batches. Epoch 0 draws one full window
(8 of 9 batches) at inner index `j = -3`, reaches `step == max_steps = 2`
and breaks mid-epoch — before the epoch's final window `j = 1`, with 4 of
its 5 inner iterations unprocessed. But the `break` leaves only the inner
loop: epoch 1 then processes one further complete window (its optimizer
step applied), advancing `global_step` to `3 > max_steps`, and only
afterwards crashes with the uncaught `StopIteration` of line 297 while
drawing the next window. The loop neither stops at the instant
`global_step == max_steps` nor keeps `global_step ≤ max_steps`. -/
theorem max_steps_overshoot :
    (get_max_steps 1 1 8 2 0 9).map (fun r => (r.2.1, r.2.2.1)) =
      Except.ok ((2 : ℤ), (2 : ℤ)) ∧
    num_trained_steps 1 (max_iterations 9 8) 2 = -3 ∧
    runEpoch 8 (leftover_batches 9 8) 2 2 5 (-3) 9 1 0 = EpochResult.broke 2 1 ∧
    (1 : ℕ) < 5 ∧
    unslothTrainRun 1 9 8 1 2 2 = RunOutcome.crashed 3 2 ∧
    (2 : ℤ) < 3 := by
  refine ⟨by norm_num [get_max_steps, Except.map], ?_, by decide, by decide, ?_, by decide⟩
  · rw [max_iterations_9_8]
    decide
  · unfold unslothTrainRun
    rw [max_iterations_9_8]
    decide

/-! ## Accumulation-window loss normalization (`unsloth_train`, lines 299-313)

A micro-batch is its label tensor, a list of rows of label tokens.
`countNonIgnored` is `torch.count_nonzero(x["labels"][..., 1:] != -100)`:
the slice `[..., 1:]` drops the first position of every row before
counting. `n_items` sums this over the whole window (lines 300-302) and the
same value is handed to every forward call of the window (line 310),
modelled by `windowForwardCalls`. -/

def countNonIgnored (labels : List (List Int)) : ℕ :=
  (labels.map (fun row => (row.drop 1).countP (· != -100))).sum

def n_items (batches : List (List (List Int))) : ℕ :=
  (batches.map countNonIgnored).sum

def windowForwardCalls (batches : List (List (List Int))) :
    List (List (List Int) × ℕ) :=
  batches.map (fun b => (b, n_items batches))

/-- The denominator as the claim words it: the count of ALL label positions
different from -100, with no slicing. -/
def claimedWindowItems (batches : List (List (List Int))) : ℕ :=
  (batches.map (fun labels => (labels.map (fun row => row.countP (· != -100))).sum)).sum

/-- C1 counterexample: a window of one micro-batch with a single row `[5]`.
Its only label position differs from -100, so the claim predicts the
denominator 1; the code slices `labels[..., 1:]` away and passes 0. -/
theorem n_items_ignores_first_position :
    n_items [[[5]]] = 0 ∧ claimedWindowItems [[[5]]] = 1 ∧
    windowForwardCalls [[[5]]] = [([[5]], 0)] ∧ (0 : ℕ) ≠ 1 := by
  refine ⟨by decide, by decide, by decide, by decide⟩

/-- C1 (amended): every forward call of an accumulation window receives one
shared denominator, `n_items` of the whole window — the sum over the
micro-batches of the count of label positions AFTER the first position of
each row that differ from -100; for a window of three micro-batches whose
counts under that rule are 5, 0 and 7, all three forward calls receive 12. -/
theorem shared_window_denominator :
    (∀ batches : List (List (List Int)),
        (windowForwardCalls batches).map Prod.snd =
          List.replicate batches.length (n_items batches)) ∧
    countNonIgnored [[-100, 1, 2, 3, 4, 5]] = 5 ∧
    countNonIgnored [[7]] = 0 ∧
    countNonIgnored [[0, 1, 2, 3, 4], [9, 5, 6, 7]] = 7 ∧
    windowForwardCalls [[[-100, 1, 2, 3, 4, 5]], [[7]], [[0, 1, 2, 3, 4], [9, 5, 6, 7]]] =
      [([[-100, 1, 2, 3, 4, 5]], 12), ([[7]], 12), ([[0, 1, 2, 3, 4], [9, 5, 6, 7]], 12)] := by
  refine ⟨?_, by decide, by decide, by decide, by decide⟩
  intro batches
  show (batches.map (fun b => (b, n_items batches))).map Prod.snd =
    List.replicate batches.length (n_items batches)
  generalize n_items batches = c
  induction batches with
  | nil => rfl
  | cons x xs ih =>
    simp only [List.map_cons, List.length_cons, List.replicate_succ]
    rw [ih]

/-! ## Logging and loss reset (`unsloth_train`, lines 330-336)

The state is `(step, accumulated_loss, emitted events)`; one `logWindow`
call is one accumulation window once its batches are done: the window's
detached losses have been added to `accumulated_loss` (line 312, summarised
as one rational per window), then `if step % logging_steps == 0` emits
`(step, accumulated_loss)` (lines 330-332), then — unconditionally, line
333 sits outside the `if` — `accumulated_loss.zero_()`, then `step += 1`. -/

def logWindow (loggingSteps : ℕ) (st : ℕ × ℚ × List (ℕ × ℚ)) (loss : ℚ) :
    ℕ × ℚ × List (ℕ × ℚ) :=
  (st.1 + 1, 0,
   if st.1 % loggingSteps = 0 then st.2.2 ++ [(st.1, st.2.1 + loss)] else st.2.2)

def runLogging (loggingSteps startStep : ℕ) (losses : List ℚ) : ℕ × ℚ × List (ℕ × ℚ) :=
  losses.foldl (logWindow loggingSteps) (startStep, 0, [])

/-- One window as the claim words it: the accumulated loss is zeroed only
when a logging event fires, and keeps growing otherwise. -/
def logWindowClaimed (loggingSteps : ℕ) (st : ℕ × ℚ × List (ℕ × ℚ)) (loss : ℚ) :
    ℕ × ℚ × List (ℕ × ℚ) :=
  (st.1 + 1,
   if st.1 % loggingSteps = 0 then 0 else st.2.1 + loss,
   if st.1 % loggingSteps = 0 then st.2.2 ++ [(st.1, st.2.1 + loss)] else st.2.2)

def runLoggingClaimed (loggingSteps startStep : ℕ) (losses : List ℚ) :
    ℕ × ℚ × List (ℕ × ℚ) :=
  losses.foldl (logWindowClaimed loggingSteps) (startStep, 0, [])

/-- The emitted events when every window starts from a zeroed accumulator:
each logging step carries exactly the loss of its own window. -/
def logExpected (loggingSteps : ℕ) : ℕ → List ℚ → List (ℕ × ℚ)
  | _, [] => []
  | step, l :: ls =>
    (if step % loggingSteps = 0 then [(step, l)] else []) ++
      logExpected loggingSteps (step + 1) ls

/-- C3 counterexample: `logging_steps = 2`, three windows of loss 1 each,
starting from step 0. The code zeroes the accumulator after every window
and logs `(2, 1)`; under the claim the accumulator would keep the unlogged
window-1 loss and log `(2, 2)`. -/
theorem loss_reset_every_window :
    runLogging 2 0 [1, 1, 1] = (3, 0, [(0, 1), (2, 1)]) ∧
    runLoggingClaimed 2 0 [1, 1, 1] = (3, 0, [(0, 1), (2, 2)]) ∧
    ([((0 : ℕ), (1 : ℚ)), (2, 1)] : List (ℕ × ℚ)) ≠ [(0, 1), (2, 2)] := by
  refine ⟨?_, ?_, ?_⟩
  · norm_num [runLogging, logWindow]
  · norm_num [runLoggingClaimed, logWindowClaimed]
  · intro h
    have h2 := List.tail_eq_of_cons_eq h
    have h3 := List.head_eq_of_cons_eq h2
    have h4 : (1 : ℚ) = 2 := congrArg Prod.snd h3
    norm_num at h4

lemma runLogging_aux (L : ℕ) (losses : List ℚ) :
    ∀ (s : ℕ) (evs : List (ℕ × ℚ)),
      losses.foldl (logWindow L) (s, 0, evs) =
        (s + losses.length, 0, evs ++ logExpected L s losses) := by
  induction losses with
  | nil => intro s evs; simp [logExpected]
  | cons l ls ih =>
    intro s evs
    show ls.foldl (logWindow L) (logWindow L (s, 0, evs) l) =
      (s + (l :: ls).length, 0, evs ++ logExpected L s (l :: ls))
    have happ : logWindow L (s, 0, evs) l =
        (s + 1, 0, if s % L = 0 then evs ++ [(s, 0 + l)] else evs) := rfl
    rw [happ]
    by_cases hlog : s % L = 0
    · rw [if_pos hlog, ih (s + 1) (evs ++ [(s, 0 + l)])]
      unfold logExpected
      rw [if_pos hlog]
      simp [List.append_assoc]
      exact ⟨by omega, by cases ls <;> rfl⟩
    · rw [if_neg hlog, ih (s + 1) evs]
      unfold logExpected
      rw [if_neg hlog]
      simp
      exact ⟨by omega, by cases ls <;> rfl⟩

/-- C3 (amended): the running accumulated loss is reset to zero after EVERY
accumulation window — right after the logging check, whether or not a
`(step, loss)` pair was emitted — so each emitted pair at
`step mod logging_interval == 0` carries exactly the loss accumulated in
its own window, and the accumulator is zero between windows. -/
theorem logging_emits_single_window_loss (L s : ℕ) (losses : List ℚ) (_hL : 0 < L) :
    runLogging L s losses = (s + losses.length, 0, logExpected L s losses) := by
  unfold runLogging
  rw [runLogging_aux L losses s []]
  rfl

/-- C3 witness: `logging_steps = 2`, windows of loss 1, 1, 1 from step 0. -/
theorem logging_emits_single_window_loss_witness :
    runLogging 2 0 [1, 1, 1] = (0 + 3, 0, logExpected 2 0 [1, 1, 1]) ∧
    logExpected 2 0 [1, 1, 1] = [(0, 1), (2, 1)] :=
  ⟨logging_emits_single_window_loss 2 0 [1, 1, 1] (by decide), by
    norm_num [logExpected]⟩

/-! ## Step-based checkpoint decision (`unsloth_train`, lines 339-344)

Reached only when `save_strategy != "epoch"`, after `step += 1` (so
`step ≥ 1` whenever the decision runs). `save_steps` is a Python number,
modelled as `ℚ`; `qmod` is the Python `%` on numbers
(`x % y = x - y*floor(x/y)` for `y > 0`) and `pyInt` is Python `int()`
(truncation toward zero). -/

def qmod (a b : ℚ) : ℚ := a - b * ⌊a / b⌋

def pyInt (q : ℚ) : ℤ := if 0 ≤ q then ⌊q⌋ else -⌊-q⌋

/-- Lines 341-344: `if step % save_steps == 0 and save_steps >= 1 and
step != 0:` save; `elif step == int(max_steps * save_steps) and
save_steps > 0:` save. Returns whether a checkpoint is written at `step`. -/
def stepSaveDecision (save_steps : ℚ) (max_steps step : ℕ) : Bool :=
  if qmod (step : ℚ) save_steps = 0 ∧ 1 ≤ save_steps ∧ step ≠ 0 then true
  else if (step : ℤ) = pyInt ((max_steps : ℚ) * save_steps) ∧ 0 < save_steps then true
  else false

/-- The decision as the claim words it: save exactly at multiples of an
interval ≥ 1, or — when the interval is a fraction — at the single
milestone `round(max_steps × save_fraction)`. -/
def claimedSaveRule (save_steps : ℚ) (max_steps step : ℕ) : Bool :=
  if (1 ≤ save_steps ∧ qmod (step : ℚ) save_steps = 0) ∨
      (save_steps < 1 ∧ (step : ℤ) = round ((max_steps : ℚ) * save_steps)) then true
  else false

/-- The decision as the code actually behaves for `step ≥ 1` and a positive
interval: the periodic trigger, or otherwise the milestone at the
TRUNCATION `int(max_steps * save_steps)`. -/
def amendedSaveRule (save_steps : ℚ) (max_steps step : ℕ) : Bool :=
  if (1 ≤ save_steps ∧ qmod (step : ℚ) save_steps = 0) ∨
      (¬ (1 ≤ save_steps ∧ qmod (step : ℚ) save_steps = 0) ∧
        0 < save_steps ∧ (step : ℤ) = pyInt ((max_steps : ℚ) * save_steps)) then true
  else false

/-- C6 counterexample: `save_steps = 0.15`, `max_steps = 10`. The code
saves at step `int(10 * 0.15) = int(1.5) = 1`; the claim predicts the
milestone `round(10 * 0.15) = round(1.5) = 2`, so at step 1 the code saves
while the claim says no checkpoint is written there. -/
theorem fractional_milestone_truncates :
    stepSaveDecision (3 / 20) 10 1 = true ∧
    claimedSaveRule (3 / 20) 10 1 = false ∧
    pyInt ((10 : ℚ) * (3 / 20)) = 1 ∧
    round ((10 : ℚ) * (3 / 20)) = 2 := by
  have hfloor : ⌊(20 / 3 : ℚ)⌋ = 6 := by
    rw [Int.floor_eq_iff]
    norm_num
  have hq : qmod (1 : ℚ) (3 / 20) = 1 / 10 := by
    unfold qmod
    rw [show (1 : ℚ) / (3 / 20) = 20 / 3 by norm_num, hfloor]
    norm_num
  have hpy : pyInt ((10 : ℚ) * (3 / 20)) = 1 := by
    unfold pyInt
    rw [if_pos (by norm_num), show (10 : ℚ) * (3 / 20) = 3 / 2 by norm_num,
      Int.floor_eq_iff]
    norm_num
  have hround : round ((10 : ℚ) * (3 / 20)) = 2 := by
    rw [show (10 : ℚ) * (3 / 20) = 3 / 2 by norm_num, round_eq,
      show (3 / 2 + 1 / 2 : ℚ) = 2 by norm_num]
    rw [show ((2 : ℚ)) = ((2 : ℤ) : ℚ) by norm_num, Int.floor_intCast]
  have hpy2 : pyInt (3 / 2 : ℚ) = 1 := by
    rw [show (3 / 2 : ℚ) = (10 : ℚ) * (3 / 20) by norm_num]
    exact hpy
  have hround2 : round (3 / 2 : ℚ) = 2 := by
    rw [show (3 / 2 : ℚ) = (10 : ℚ) * (3 / 20) by norm_num]
    exact hround
  refine ⟨?_, ?_, hpy, hround⟩
  · unfold stepSaveDecision
    norm_num [hq, hpy2]
  · unfold claimedSaveRule
    norm_num [hq, hround2]

/-- C6 (amended): for any positive configured interval and any step ≥ 1
(always the case at the decision point, which runs after `step += 1`), a
checkpoint is written exactly when `step mod save_interval == 0` with
interval ≥ 1, or — failing that — when `step` equals the truncation toward
zero `int(max_steps × save_steps)`, for ANY positive interval, not only a
fractional one. -/
theorem step_save_decision_spec (save_steps : ℚ) (max_steps step : ℕ)
    (hs : 0 < save_steps) (hstep : 1 ≤ step) :
    stepSaveDecision save_steps max_steps step = amendedSaveRule save_steps max_steps step := by
  unfold stepSaveDecision amendedSaveRule
  have hne : step ≠ 0 := by omega
  by_cases h1 : qmod (step : ℚ) save_steps = 0 ∧ 1 ≤ save_steps
  · rw [if_pos ⟨h1.1, h1.2, hne⟩, if_pos (Or.inl ⟨h1.2, h1.1⟩)]
  · have hn1 : ¬ (qmod (step : ℚ) save_steps = 0 ∧ 1 ≤ save_steps ∧ step ≠ 0) := by
      intro hc
      exact h1 ⟨hc.1, hc.2.1⟩
    have hn2 : ¬ (1 ≤ save_steps ∧ qmod (step : ℚ) save_steps = 0) := by
      intro hc
      exact h1 ⟨hc.2, hc.1⟩
    rw [if_neg hn1]
    by_cases h2 : (step : ℤ) = pyInt ((max_steps : ℚ) * save_steps)
    · rw [if_pos ⟨h2, hs⟩, if_pos (Or.inr ⟨hn2, hs, h2⟩)]
    · have hd : ¬ ((1 ≤ save_steps ∧ qmod (step : ℚ) save_steps = 0) ∨
          (¬ (1 ≤ save_steps ∧ qmod (step : ℚ) save_steps = 0) ∧
            0 < save_steps ∧ (step : ℤ) = pyInt ((max_steps : ℚ) * save_steps))) := by
        rintro (hc | hc)
        · exact hn2 hc
        · exact h2 hc.2.2
      rw [if_neg (fun hc => h2 hc.1), if_neg hd]

/-- C6 witness: an integer interval `save_steps = 2`, `max_steps = 5`,
evaluated at step 4. -/
theorem step_save_decision_spec_witness :
    (0 : ℚ) < 2 ∧ (1 : ℕ) ≤ 4 ∧
    stepSaveDecision 2 5 4 = amendedSaveRule 2 5 4 :=
  ⟨by decide, by decide, step_save_decision_spec 2 5 4 (by decide) (by decide)⟩

/-! ## Error behaviour of the `unsloth_train` prelude (lines 150-218)

The state-mutating actions performed before the training loop are recorded
in order: loading a checkpoint into the model (line 163), restoring trainer
state (lines 165-170), `set_training(model)` (line 176, mutates the model),
`transformers_set_seed` (line 177), constructing the optimizer (lines
189-206), then `get_max_steps` (line 208) — whose `world_size > 1` check
raises `RuntimeError` only at that point — and the scheduler (line 212).
`resume` models the `resume_from_checkpoint` argument (`False`/`None` are
identified by line 153-154); `lastCheckpoint` models what
`get_last_checkpoint(output_dir)` would return; `stateFileExists` models
the `os.path.isfile(... trainer_state ...)` test. -/

inductive ResumeArg
  | fromBool (b : Bool)
  | fromPath (p : String)
deriving DecidableEq, Repr

inductive TrainEffect
  | loadCheckpoint (path : String)
  | loadTrainerState
  | setTraining
  | setSeed
  | buildOptimizer
  | buildScheduler
deriving DecidableEq, Repr

inductive TrainException
  | runtimeError (msg : String)
  | valueError (msg : String)
deriving DecidableEq, Repr

def multiGpuMsg : String :=
  "Unsloth currently does not support multi GPU setups - but we are working on it!"

def noCheckpointMsg (outputDir : String) : String :=
  "No valid checkpoint found in output directory (" ++ outputDir ++ ")"

/-- The effect sequence once the checkpoint argument has been resolved to
`ckpt` (lines 162-218): load checkpoint and trainer state when applicable,
set training mode, set the seed, build the optimizer, then the
`world_size > 1` RuntimeError inside `get_max_steps`, else the scheduler. -/
def preludeFromCheckpoint (worldSize : ℕ) (ckpt : Option String)
    (stateFileExists : Bool) : List TrainEffect × Option TrainException :=
  let effs :=
    (match ckpt with
     | some p =>
       TrainEffect.loadCheckpoint p ::
         (if stateFileExists then [TrainEffect.loadTrainerState] else [])
     | none => []) ++
    [TrainEffect.setTraining, TrainEffect.setSeed, TrainEffect.buildOptimizer]
  if worldSize > 1 then (effs, some (TrainException.runtimeError multiGpuMsg))
  else (effs ++ [TrainEffect.buildScheduler], none)

/-- Lines 150-218 of `unsloth_train`: resolve the resume argument (raising
`ValueError` when `resume_from_checkpoint is True` but no checkpoint
exists), then run the prelude effects. -/
def unslothTrainPrelude (worldSize : ℕ) (outputDir : String) (resume : ResumeArg)
    (lastCheckpoint : Option String) (stateFileExists : Bool) :
    List TrainEffect × Option TrainException :=
  match resume with
  | ResumeArg.fromBool false => preludeFromCheckpoint worldSize none stateFileExists
  | ResumeArg.fromBool true =>
    match lastCheckpoint with
    | none => ([], some (TrainException.valueError (noCheckpointMsg outputDir)))
    | some p => preludeFromCheckpoint worldSize (some p) stateFileExists
  | ResumeArg.fromPath p => preludeFromCheckpoint worldSize (some p) stateFileExists

def isRuntimeErrorO : Option TrainException → Bool
  | some (TrainException.runtimeError _) => true
  | _ => false

/-- C7 counterexample: (a) resume-from-latest with no checkpoint raises
`ValueError`, not `RuntimeError`; (b) with `world_size = 2` the
`RuntimeError` is raised only after `set_training`, the seed, and the
optimizer have already mutated training state. -/
theorem resume_error_kind_and_mutation_order :
    (unslothTrainPrelude 1 "out" (ResumeArg.fromBool true) none false).2 =
      some (TrainException.valueError (noCheckpointMsg "out")) ∧
    isRuntimeErrorO (unslothTrainPrelude 1 "out" (ResumeArg.fromBool true) none false).2 =
      false ∧
    unslothTrainPrelude 2 "out" (ResumeArg.fromBool false) none false =
      ([TrainEffect.setTraining, TrainEffect.setSeed, TrainEffect.buildOptimizer],
       some (TrainException.runtimeError multiGpuMsg)) ∧
    TrainEffect.setTraining ∈ (unslothTrainPrelude 2 "out" (ResumeArg.fromBool false) none false).1 := by
  refine ⟨rfl, rfl, rfl, ?_⟩
  show TrainEffect.setTraining ∈
    [TrainEffect.setTraining, TrainEffect.setSeed, TrainEffect.buildOptimizer]
  exact List.mem_cons_self _ _

/-- C7 (amended): the prelude fails fast and is not retried, but: when
resume-from-latest finds no checkpoint it raises `ValueError` (with no
effect performed), and a multi-accelerator request raises `RuntimeError`
only after the model has been put in training mode, the seed has been set
and the optimizer has been constructed. -/
theorem prelude_error_behaviour (worldSize : ℕ) (outputDir : String) (resume : ResumeArg)
    (lastCheckpoint : Option String) (stateFileExists : Bool) :
    (resume = ResumeArg.fromBool true → lastCheckpoint = none →
      unslothTrainPrelude worldSize outputDir resume lastCheckpoint stateFileExists =
        ([], some (TrainException.valueError (noCheckpointMsg outputDir)))) ∧
    (1 < worldSize → ¬ (resume = ResumeArg.fromBool true ∧ lastCheckpoint = none) →
      (unslothTrainPrelude worldSize outputDir resume lastCheckpoint stateFileExists).2 =
        some (TrainException.runtimeError multiGpuMsg) ∧
      TrainEffect.setTraining ∈
        (unslothTrainPrelude worldSize outputDir resume lastCheckpoint stateFileExists).1 ∧
      TrainEffect.setSeed ∈
        (unslothTrainPrelude worldSize outputDir resume lastCheckpoint stateFileExists).1 ∧
      TrainEffect.buildOptimizer ∈
        (unslothTrainPrelude worldSize outputDir resume lastCheckpoint stateFileExists).1) := by
  constructor
  · rintro rfl rfl
    rfl
  · intro hws hnot
    have hres : unslothTrainPrelude worldSize outputDir resume lastCheckpoint stateFileExists =
        preludeFromCheckpoint worldSize
          (match resume, lastCheckpoint with
           | ResumeArg.fromBool false, _ => none
           | ResumeArg.fromBool true, c => c
           | ResumeArg.fromPath p, _ => some p) stateFileExists := by
      cases resume with
      | fromBool b =>
        cases b with
        | false => rfl
        | true =>
          cases lastCheckpoint with
          | none => exact absurd ⟨rfl, rfl⟩ hnot
          | some p => rfl
      | fromPath p => rfl
    rw [hres]
    unfold preludeFromCheckpoint
    rw [if_pos hws]
    refine ⟨rfl, ?_, ?_, ?_⟩ <;>
      simp [List.mem_append]

/-- C7 witness: resume-from-latest over an empty output directory raises
the ValueError; a 2-GPU fresh run raises the RuntimeError after the
mutating effects. -/
theorem prelude_error_behaviour_witness :
    unslothTrainPrelude 1 "out" (ResumeArg.fromBool true) none false =
      ([], some (TrainException.valueError (noCheckpointMsg "out"))) ∧
    (unslothTrainPrelude 2 "out" (ResumeArg.fromPath "ck") none true).2 =
      some (TrainException.runtimeError multiGpuMsg) ∧
    TrainEffect.setTraining ∈ (unslothTrainPrelude 2 "out" (ResumeArg.fromPath "ck") none true).1 :=
  ⟨(prelude_error_behaviour 1 "out" (ResumeArg.fromBool true) none false).1 rfl rfl,
   ((prelude_error_behaviour 2 "out" (ResumeArg.fromPath "ck") none true).2 (by decide)
      (fun hc => ResumeArg.noConfusion hc.1)).1,
   ((prelude_error_behaviour 2 "out" (ResumeArg.fromPath "ck") none true).2 (by decide)
      (fun hc => ResumeArg.noConfusion hc.1)).2.1⟩
